import Mathlib

/-
Shallow embedding of the weather-app backend (src/backend/server.js).

Modelling conventions, shared by every definition below:
- a possibly-absent JSON/JS value is an `Option`; `none` stands for
  `undefined` (and for `null`, which the handlers treat the same way);
- JS truthiness is made explicit: a string is truthy iff it is non-empty
  (`truthyStr`), a number is truthy iff it is non-zero (`truthyNum`);
  an object (a record in this embedding) is always truthy;
- JS numbers are modelled as `Int`; none of the verified claims depends on
  fractional values, and every concrete witness uses integral inputs, on
  which JS arithmetic, truthiness and stringification agree with `Int`;
- `new Date(s).getTime()` is an uninterpreted parameter
  `parse : String → Option Int` (`none` models an invalid date / `NaN`),
  and the call time `new Date()` is a parameter `now : Int`;
- the outcome of each outbound HTTP request is supplied by a `World`
  record: the handler's control flow on those outcomes is what is
  embedded, the network itself is not.  An axios rejection carries an
  optional `response`; `response.data` is `none` when the body is absent
  or falsy (`undefined`, `null`, `""`), mirroring the truthiness test
  `err.response && err.response.data` at line 210 of server.js;
- `Promise.all` at lines 202/303 is modelled by inspecting the current
  outcome first: when both calls reject, JS propagates whichever
  rejection settles first, and no claim depends on that tie.
-/

namespace WeatherBackend

/-- JS truthiness of a possibly-absent string value: `undefined`, `null`
and `""` are falsy, every other string is truthy. -/
def truthyStr : Option String → Bool
  | none => false
  | some s => s != ""

/-- JS truthiness of a possibly-absent number value: `undefined`, `null`
and `0` are falsy, every other (integral) number is truthy. -/
def truthyNum : Option Int → Bool
  | none => false
  | some n => n != 0

/-- Interpolation of a possibly-absent string into a JS template literal:
`undefined` prints as the literal text "undefined". -/
def strField : Option String → String
  | none => "undefined"
  | some s => s

/-- Interpolation of a possibly-absent number into a JS template literal:
`undefined` prints as the literal text "undefined". -/
def numField : Option Int → String
  | none => "undefined"
  | some n => toString n

/-- The JS expression `x || null` on an optional string: falsy values
collapse to `null` (modelled `none`). -/
def jsOrNone (o : Option String) : Option String :=
  if truthyStr o then o else none

/-- The JS expression `x || ""` on an optional string. -/
def jsOrEmpty (o : Option String) : String :=
  if truthyStr o then o.getD "" else ""

/-- Uppercase hexadecimal digit, as produced by `encodeURIComponent`. -/
def hexDigitChar (n : Nat) : Char :=
  if n < 10 then Char.ofNat (48 + n) else Char.ofNat (55 + n)

/-- Percent-encoding of one byte. -/
def percentByte (b : Nat) : String :=
  "%" ++ String.singleton (hexDigitChar (b / 16)) ++ String.singleton (hexDigitChar (b % 16))

/-- Characters `encodeURIComponent` leaves unescaped (RFC 3986 unreserved
plus `! ~ * ' ( )`). -/
def isUriUnreserved (c : Char) : Bool :=
  c.isAlphanum || c == '-' || c == '_' || c == '.' || c == '!' || c == '~' ||
    c == '*' || c == Char.ofNat 39 || c == '(' || c == ')'

/-- Encoding of a single character: unreserved characters pass through,
everything else is percent-encoded byte by byte (UTF-8). -/
def encodeUriChar (c : Char) : String :=
  if isUriUnreserved c then String.singleton c
  else String.join (((String.singleton c).toUTF8.toList).map (fun b => percentByte b.toNat))

/-- The JS global `encodeURIComponent`, used at lines 129, 156 of
server.js. -/
def encodeURIComponent (s : String) : String :=
  String.join (s.data.map encodeUriChar)

/-- Result record of `validateDateRange` (server.js lines 115-124):
`{ valid, error }`, the `error` field absent on success. -/
structure VdrResult where
  valid : Bool
  error : Option String
deriving DecidableEq, Repr

/-- validateDateRange (server.js lines 115-124).  `parse` stands for
`new Date(·).getTime()` (`none` = `NaN`), `now` for the call time; the
date arguments are the raw request fields (`new Date(undefined)` is an
invalid date, hence `Option.bind`). -/
def validateDateRange (parse : String → Option Int) (now : Int)
    (dateFrom dateTo : Option String) : VdrResult :=
  if !truthyStr dateFrom || !truthyStr dateTo then
    { valid := false, error := some "Both dates are required" }
  else
    match dateFrom.bind parse, dateTo.bind parse with
    | some f, some t =>
      if f > t then { valid := false, error := some "Start date must be before end date" }
      else if t > now then { valid := false, error := some "End date cannot be in the future" }
      else { valid := true, error := none }
    | _, _ => { valid := false, error := some "Invalid date format" }

/-- A result row of the geocoding provider (one element of
`response.data` at lines 131-133 / 144-146 of server.js). -/
structure GeoPlace where
  lat : Int
  lon : Int
  name : String
  country : String
  state : Option String
deriving DecidableEq, Repr

/-- LocationInfo: the record both resolvers build from the first
provider result (server.js lines 133, 146). -/
structure LocationInfo where
  lat : Int
  lon : Int
  name : String
  country : String
  state : Option String
  fullName : String
deriving DecidableEq, Repr

/-- The record literal shared by lines 133 and 146 of server.js:
`state` is `place.state || null`, `fullName` is
`name + (state ? ", " + state : "") + ", " + country`; `latV`/`lonV` are
whatever the call site puts in the `lat`/`lon` fields. -/
def placeInfo (latV lonV : Int) (p : GeoPlace) : LocationInfo :=
  { lat := latV, lon := lonV, name := p.name, country := p.country,
    state := if truthyStr p.state then p.state else none,
    fullName := p.name ++ (if truthyStr p.state then ", " ++ p.state.getD "" else "")
      ++ ", " ++ p.country }

/-- Outcome of one geocoding HTTP call: `Except.error` models a rejected
promise (network error, non-2xx), `Except.ok none` a fulfilled response
whose `data` is missing or falsy, `Except.ok (some l)` a JSON array. -/
abbrev GeoOutcome := Except Unit (Option (List GeoPlace))

/-- getCoordinatesFromLocation (server.js lines 126-137): returns the
info built from the first result when `response.data` is truthy and
non-empty, `null` otherwise; the surrounding `try/catch` turns every
rejection into `null`.  The forward resolver copies `lat`/`lon` from the
provider's result. -/
def getCoordinatesFromLocation (geo : GeoOutcome) : Option LocationInfo :=
  match geo with
  | .ok (some (p :: _)) => some (placeInfo p.lat p.lon p)
  | _ => none

/-- getLocationFromCoordinates (server.js lines 139-150): same failure
policy as the forward resolver, but `lat`/`lon` in the result are the
`parseFloat` of the input coordinates (identity on numbers). -/
def getLocationFromCoordinates (geo : GeoOutcome) (latV lonV : Int) : Option LocationInfo :=
  match geo with
  | .ok (some (p :: _)) => some (placeInfo latV lonV p)
  | _ => none

/-- The pair of upstream URLs returned by buildWeatherUrl. -/
structure UrlPair where
  current : String
  forecast : String
deriving DecidableEq, Repr

/-- The argument object of buildWeatherUrl (`{ location, lat, lon, type }`,
destructured at line 152 of server.js). -/
structure UrlArgs where
  location : Option String
  lat : Option Int
  lon : Option Int
  type : Option String
deriving DecidableEq, Repr

/-- buildWeatherUrl (server.js lines 152-157): coordinate mode when
`lat && lon` (JS truthiness), else postal-code mode when
`type === "zip"`, else free-text mode with the URL-encoded location
(an absent location interpolates as the text "undefined"). -/
def buildWeatherUrl (apiKey : String) (a : UrlArgs) : UrlPair :=
  if truthyNum a.lat && truthyNum a.lon then
    { current := "https://api.openweathermap.org/data/2.5/weather?lat=" ++ numField a.lat
        ++ "&lon=" ++ numField a.lon ++ "&appid=" ++ apiKey ++ "&units=metric",
      forecast := "https://api.openweathermap.org/data/2.5/forecast?lat=" ++ numField a.lat
        ++ "&lon=" ++ numField a.lon ++ "&appid=" ++ apiKey ++ "&units=metric" }
  else if a.type == some "zip" then
    { current := "https://api.openweathermap.org/data/2.5/weather?zip=" ++ strField a.location
        ++ "&appid=" ++ apiKey ++ "&units=metric",
      forecast := "https://api.openweathermap.org/data/2.5/forecast?zip=" ++ strField a.location
        ++ "&appid=" ++ apiKey ++ "&units=metric" }
  else
    { current := "https://api.openweathermap.org/data/2.5/weather?q="
        ++ encodeURIComponent (strField a.location) ++ "&appid=" ++ apiKey ++ "&units=metric",
      forecast := "https://api.openweathermap.org/data/2.5/forecast?q="
        ++ encodeURIComponent (strField a.location) ++ "&appid=" ++ apiKey ++ "&units=metric" }

/-- Coordinate-mode URL pair ("query by coordinates"), stated
independently of `buildWeatherUrl` for claim C2. -/
def coordModeUrls (apiKey : String) (lat lon : Int) : UrlPair :=
  { current := "https://api.openweathermap.org/data/2.5/weather?lat=" ++ toString lat
      ++ "&lon=" ++ toString lon ++ "&appid=" ++ apiKey ++ "&units=metric",
    forecast := "https://api.openweathermap.org/data/2.5/forecast?lat=" ++ toString lat
      ++ "&lon=" ++ toString lon ++ "&appid=" ++ apiKey ++ "&units=metric" }

/-- Postal-code-mode URL pair ("query by postal code"), stated
independently of `buildWeatherUrl` for claim C2. -/
def zipModeUrls (apiKey : String) (zipText : String) : UrlPair :=
  { current := "https://api.openweathermap.org/data/2.5/weather?zip=" ++ zipText
      ++ "&appid=" ++ apiKey ++ "&units=metric",
    forecast := "https://api.openweathermap.org/data/2.5/forecast?zip=" ++ zipText
      ++ "&appid=" ++ apiKey ++ "&units=metric" }

/-- Free-text-mode URL pair ("query by the URL-encoded free-text
name"), stated independently of `buildWeatherUrl` for claim C2. -/
def textModeUrls (apiKey : String) (q : String) : UrlPair :=
  { current := "https://api.openweathermap.org/data/2.5/weather?q=" ++ encodeURIComponent q
      ++ "&appid=" ++ apiKey ++ "&units=metric",
    forecast := "https://api.openweathermap.org/data/2.5/forecast?q=" ++ encodeURIComponent q
      ++ "&appid=" ++ apiKey ++ "&units=metric" }

/-- The request body of `POST /api/weather`
(`{ location, lat, lon, type, dateFrom, dateTo }`, line 195). -/
structure ReqBody where
  location : Option String
  lat : Option Int
  lon : Option Int
  type : Option String
  dateFrom : Option String
  dateTo : Option String
deriving DecidableEq, Repr

/-- The `coord` block of an upstream current-conditions payload. -/
structure Coord where
  lat : Int
  lon : Int
deriving DecidableEq, Repr

/-- The `main` block of an upstream current-conditions payload (only the
field the backend ever reads). -/
structure MainInfo where
  temp : Int
deriving DecidableEq, Repr

/-- One element of the `weather` array of an upstream payload. -/
structure WeatherCond where
  main : String
deriving DecidableEq, Repr

/-- An upstream current-conditions payload (`currentResp.data`): the
fields the backend reads, plus `extra`, which stands for every other
upstream field and is never touched by the backend. -/
structure CurrentPayload where
  coord : Option Coord
  timezone : Option Int
  main : MainInfo
  weather : List WeatherCond
  extra : String
deriving DecidableEq, Repr

/-- An upstream forecast payload (`forecastResp.data`), opaque to the
backend. -/
structure ForecastPayload where
  payload : String
deriving DecidableEq, Repr

/-- The `data` of an upstream error response (only the field the catch
block reads). -/
structure AxiosData where
  message : Option String
deriving DecidableEq, Repr

/-- An upstream error response: `data` is `none` when the body is absent
or falsy, so that `err.response.data` (line 210) is modelled by
`isSome`. -/
structure AxiosResp where
  status : Nat
  data : Option AxiosData
deriving DecidableEq, Repr

/-- A rejected axios promise: `response` is absent on network errors. -/
structure AxiosErr where
  response : Option AxiosResp
deriving DecidableEq, Repr

/-- Outcomes of the outbound calls one request can make; the handler's
control flow on these outcomes is the object of study. -/
structure World where
  geo : GeoOutcome
  current : Except AxiosErr CurrentPayload
  forecast : Except AxiosErr ForecastPayload

/-- The `current` object of the response after the augmentation at lines
204-206 of server.js: the upstream payload (`base`) plus the four fields
the handler may add.  In JS the payload object is mutated in place; here
the added fields are kept alongside it, `none` meaning the key was not
added. -/
structure AugmentedCurrent where
  base : CurrentPayload
  coordinates : Option Coord
  enhancedLocation : Option LocationInfo
  displayName : Option String
  timezoneOffset : Option Int
deriving DecidableEq, Repr

/-- The `weatherData` record a successful `POST /api/weather` responds
with (line 203 after augmentation). -/
structure WeatherData where
  current : AugmentedCurrent
  forecast : ForecastPayload
  searchedLocation : String
deriving DecidableEq, Repr

/-- The bound parameters of the fire-and-forget `INSERT` at line 207. -/
structure InsertArgs where
  location : String
  date_from : Option String
  date_to : Option String
  data : WeatherData
deriving DecidableEq, Repr

/-- Outcome of one `POST /api/weather` request: a 200 JSON body together
with the row insertion it triggers, or `res.status(status).json({error})`
(the error text is `Option` because line 210 sends
`err.response.data.message`, which may be absent). -/
inductive PostResult where
  | ok (data : WeatherData) (ins : InsertArgs)
  | err (status : Nat) (error : Option String)
deriving DecidableEq, Repr

/-- The response body of a successful request, `none` on an error
response. -/
def PostResult.okData : PostResult → Option WeatherData
  | .ok d _ => some d
  | .err _ _ => none

/-- The presence check at line 196:
`!location && (lat === undefined || lon === undefined)` — truthiness for
`location`, strict `undefined` comparison for the coordinates. -/
def presenceRejected (b : ReqBody) : Bool :=
  !truthyStr b.location && (b.lat.isNone || b.lon.isNone)

/-- The date step at line 197: `validateDateRange` runs only when both
date fields are truthy; `some e` is the payload of the 400 it returns,
`none` means the request goes on. -/
def dateRejection (parse : String → Option Int) (now : Int)
    (dateFrom dateTo : Option String) : Option (Option String) :=
  if truthyStr dateFrom && truthyStr dateTo then
    if (validateDateRange parse now dateFrom dateTo).valid then none
    else some (validateDateRange parse now dateFrom dateTo).error
  else none

/-- Which resolver the enrichment step at lines 198-200 invokes. -/
inductive EnrichKind where
  | forward
  | reverse
deriving DecidableEq, Repr

/-- The enrichment dispatch at lines 199-200:
`if (location && !lat && !lon)` forward geocoding,
`else if (lat && lon && !location)` reverse geocoding, else no call. -/
def enrichmentCall (b : ReqBody) : Option EnrichKind :=
  if truthyStr b.location && !truthyNum b.lat && !truthyNum b.lon then some .forward
  else if truthyNum b.lat && truthyNum b.lon && !truthyStr b.location then some .reverse
  else none

/-- Value of `enhancedLocationInfo` after lines 198-200; in the reverse
branch both coordinates are truthy, hence present, so `getD 0` never
supplies its default. -/
def enrichResult (b : ReqBody) (w : World) : Option LocationInfo :=
  match enrichmentCall b with
  | some .forward => getCoordinatesFromLocation w.geo
  | some .reverse => getLocationFromCoordinates w.geo (b.lat.getD 0) (b.lon.getD 0)
  | none => none

/-- The expression `location || lat + "," + lon` used at lines 203 and
207 (template interpolation prints an absent coordinate as
"undefined"). -/
def searchedLocationOf (b : ReqBody) : String :=
  if truthyStr b.location then b.location.getD ""
  else numField b.lat ++ "," ++ numField b.lon

/-- The augmentation of `weatherData.current` at lines 204-206:
`coordinates` copied from `coord` when that object is present (objects
are always truthy), `enhancedLocation`/`displayName` when enrichment
produced a result, `timezoneOffset` when the `timezone` number is truthy
(so a timezone of `0` is not copied). -/
def augmentCurrent (cur : CurrentPayload) (enh : Option LocationInfo) : AugmentedCurrent :=
  { base := cur,
    coordinates := cur.coord.map (fun c => { lat := c.lat, lon := c.lon }),
    enhancedLocation := enh,
    displayName := enh.map (fun i => i.fullName),
    timezoneOffset := if truthyNum cur.timezone then cur.timezone else none }

/-- The catch block at lines 209-212: mirror the upstream status and
`data.message` when `err.response && err.response.data` are truthy, else
a generic 500. -/
def weatherCatch (e : AxiosErr) : PostResult :=
  match e.response with
  | some r =>
    match r.data with
    | some d => .err r.status d.message
    | none => .err 500 (some "Failed to fetch weather data.")
  | none => .err 500 (some "Failed to fetch weather data.")

/-- Lines 198-208 of the handler, after validation has passed: run the
enrichment dispatch, build the upstream URLs, await both weather calls
(`Promise.all`), then build the response record and the insert. -/
def postWeatherFetch (apiKey : String) (b : ReqBody) (w : World) : PostResult :=
  let enhanced := enrichResult b w
  let _urls := buildWeatherUrl apiKey
    { location := b.location, lat := b.lat, lon := b.lon, type := b.type }
  match w.current with
  | .error e => weatherCatch e
  | .ok cur =>
    match w.forecast with
    | .error e => weatherCatch e
    | .ok fc =>
      let wd : WeatherData :=
        { current := augmentCurrent cur enhanced, forecast := fc,
          searchedLocation := searchedLocationOf b }
      .ok wd
        { location := searchedLocationOf b, date_from := jsOrNone b.dateFrom,
          date_to := jsOrNone b.dateTo, data := wd }

/-- The `POST /api/weather` handler (server.js lines 193-213). -/
def postWeather (apiKey : String) (parse : String → Option Int) (now : Int)
    (b : ReqBody) (w : World) : PostResult :=
  if presenceRejected b then .err 400 (some "Location or coordinates required.")
  else
    match dateRejection parse now b.dateFrom b.dateTo with
    | some e => .err 400 e
    | none => postWeatherFetch apiKey b w

/-- The serialized `weather_data` column of a stored row, parsed back:
rows written by `POST` carry the full response record, rows written by
`PUT` carry only `{ current, forecast }`, so the augmentation fields and
`searchedLocation` are absent (`none`) there. -/
structure StoredWeather where
  current : AugmentedCurrent
  forecast : ForecastPayload
  searchedLocation : Option String
deriving DecidableEq, Repr

/-- One row of the `weather_queries` table. -/
structure Row where
  id : Int
  location : String
  date_from : Option String
  date_to : Option String
  weather_data : StoredWeather
  created_at : String
deriving DecidableEq, Repr

/-- The request body of `PUT /api/queries/:id` (line 299). -/
structure PutBody where
  location : Option String
  dateFrom : Option String
  dateTo : Option String
deriving DecidableEq, Repr

/-- Outcome of one `PUT /api/queries/:id` request. -/
inductive PutResult where
  | ok (message : String) (data : StoredWeather)
  | err (status : Nat) (error : Option String)
deriving DecidableEq, Repr

/-- The `PUT /api/queries/:id` handler (server.js lines 297-311),
returning the response together with the table contents after the
`UPDATE`.  The `UPDATE ... WHERE id = ?` is modelled by mapping over the
rows; `this.changes` is the number of rows whose `id` matched; a zero
count yields the 404.  The route parameter is modelled as the integer it
binds to in the SQL comparison. -/
def putQuery (apiKey : String) (parse : String → Option Int) (now : Int)
    (store : List Row) (idParam : Int) (b : PutBody) (w : World) :
    PutResult × List Row :=
  if !truthyStr b.location then (.err 400 (some "Location is required"), store)
  else
    match dateRejection parse now b.dateFrom b.dateTo with
    | some e => (.err 400 e, store)
    | none =>
      let _urls := buildWeatherUrl apiKey
        { location := b.location, lat := none, lon := none, type := none }
      match w.current with
      | .error _ => (.err 500 (some "Failed to update weather data"), store)
      | .ok cur =>
        match w.forecast with
        | .error _ => (.err 500 (some "Failed to update weather data"), store)
        | .ok fc =>
          let wd : StoredWeather :=
            { current := { base := cur, coordinates := none, enhancedLocation := none,
                           displayName := none, timezoneOffset := none },
              forecast := fc, searchedLocation := none }
          let changes := store.countP (fun r => r.id == idParam)
          let store2 := store.map (fun r =>
            if r.id == idParam then
              { r with location := b.location.getD "", date_from := jsOrNone b.dateFrom,
                       date_to := jsOrNone b.dateTo, weather_data := wd }
            else r)
          if changes == 0 then (.err 404 (some "Query not found"), store2)
          else (.ok "Query updated successfully" wd, store2)

/-- The CSV header line (server.js line 358). -/
def csvHeader : String := "ID,Location,Date From,Date To,Temperature,Weather,Created At"

/-- One CSV data line (server.js line 360): the raw column values joined
by commas, nothing quoted or escaped.  `weather.current.weather[0]` is
modelled by `headD`; on an empty array JS would throw instead (rows
written by this backend always carry at least one element). -/
def csvLine (row : Row) : String :=
  toString row.id ++ "," ++ row.location ++ "," ++ jsOrEmpty row.date_from ++ ","
    ++ jsOrEmpty row.date_to ++ "," ++ toString row.weather_data.current.base.main.temp
    ++ "°C," ++ (row.weather_data.current.base.weather.headD { main := "" }).main
    ++ "," ++ row.created_at

/-- The full CSV document (server.js lines 358-361). -/
def csvExport (rows : List Row) : String :=
  String.intercalate "\n" (csvHeader :: rows.map csvLine)

/-- Number of comma-separated fields of a line: for the single-character
separator "," a line splits into one more field than it has commas. -/
def csvFieldCount (s : String) : Nat := s.data.count ',' + 1

/-! Concrete fixtures used by witnesses and counterexamples. -/

/-- A minimal upstream current-conditions payload. -/
def basePayload : CurrentPayload :=
  { coord := none, timezone := none, main := { temp := 20 },
    weather := [{ main := "Clear" }], extra := "" }

/-- A world in which both weather calls succeed and the geocoding
provider returns zero results. -/
def okWorld : World :=
  { geo := .ok (some []), current := .ok basePayload,
    forecast := .ok { payload := "forecast" } }

/-- A plain free-text request body. -/
def parisBody : ReqBody :=
  { location := some "Paris", lat := none, lon := none, type := none,
    dateFrom := none, dateTo := none }

/-- The request body of claim C9: numeric zero coordinates, no
location. -/
def c9Body : ReqBody :=
  { location := none, lat := some 0, lon := some 0, type := none,
    dateFrom := none, dateTo := none }

/-- `basePayload` with no augmentation fields set, as a stored row
carries it. -/
def plainAug : AugmentedCurrent :=
  { base := basePayload, coordinates := none, enhancedLocation := none,
    displayName := none, timezoneOffset := none }

/-- A stored `weather_data` value. -/
def sampleStored : StoredWeather :=
  { current := plainAug, forecast := { payload := "forecast" },
    searchedLocation := some "Paris" }

/-- A stored row. -/
def sampleRow : Row :=
  { id := 1, location := "Paris", date_from := none, date_to := none,
    weather_data := sampleStored, created_at := "2024-01-01" }

/-! Helper lemmas. -/

/-- A list map whose function fixes every element of the list is the
identity. -/
theorem map_eq_self_of_fixes {α : Type} (l : List α) (f : α → α)
    (h : ∀ a ∈ l, f a = a) : l.map f = l := by
  induction l with
  | nil => rfl
  | cons x xs ih =>
    simp only [List.map_cons, List.cons.injEq]
    exact ⟨h x (by simp), ih (fun a ha => h a (by simp [ha]))⟩

/-- Every error `validateDateRange` can produce is one of its four fixed
messages, and the error is absent only on a valid result. -/
theorem validateDateRange_error_cases (parse : String → Option Int) (now : Int)
    (df dt : Option String) :
    ((validateDateRange parse now df dt).valid = true ∧
      (validateDateRange parse now df dt).error = none) ∨
    (validateDateRange parse now df dt).error = some "Both dates are required" ∨
    (validateDateRange parse now df dt).error = some "Invalid date format" ∨
    (validateDateRange parse now df dt).error = some "Start date must be before end date" ∨
    (validateDateRange parse now df dt).error = some "End date cannot be in the future" := by
  unfold validateDateRange
  split
  · simp
  · cases hf : df.bind parse with
    | none => cases ht : dt.bind parse <;> simp
    | some f =>
      cases ht : dt.bind parse with
      | none => simp
      | some t =>
        dsimp only
        split
        · simp
        · split <;> simp

/-- Every 400 payload the date step can produce is one of the three
messages reachable through it. -/
theorem dateRejection_cases (parse : String → Option Int) (now : Int)
    (df dt : Option String) (e : Option String)
    (h : dateRejection parse now df dt = some e) :
    e = some "Invalid date format" ∨
    e = some "Start date must be before end date" ∨
    e = some "End date cannot be in the future" ∨
    e = some "Both dates are required" := by
  unfold dateRejection at h
  split at h
  · split at h
    case isTrue => exact absurd h (by simp)
    case isFalse hvf =>
      rw [Option.some.injEq] at h
      subst h
      rcases validateDateRange_error_cases parse now df dt with ⟨hval, _⟩ | hv | hv | hv | hv
      · exact absurd hval hvf
      all_goals rw [hv]
      all_goals simp
  · exact absurd h (by simp)

/-- The presence condition of line 196 restated as a proposition: the
check fires exactly when the request has neither a truthy location nor
both coordinate fields. -/
theorem presenceRejected_iff (b : ReqBody) :
    presenceRejected b = true ↔
      ¬(truthyStr b.location = true ∨ (b.lat ≠ none ∧ b.lon ≠ none)) := by
  simp only [presenceRejected, Bool.and_eq_true, Bool.or_eq_true, Bool.not_eq_true',
    Option.isNone_iff_eq_none, not_or, not_and_or, not_not]
  constructor
  · rintro ⟨h1, h2⟩
    exact ⟨by simp [h1], by tauto⟩
  · rintro ⟨h1, h2⟩
    exact ⟨by simpa using h1, by tauto⟩

/-! Claim theorems. -/

/-- C2: buildWeatherUrl queries by coordinates when both `lat` and `lon`
are given with truthy (non-zero) values, otherwise by postal code when
`type` equals "zip", otherwise by the URL-encoded free-text location
name.  The claim's "given" is formalised as JS-truthy, the reading under
which the dispatch is stated at line 154 and the one consistent with
claim C9 (a given-but-zero coordinate falls through to free-text
mode). -/
theorem c2_buildWeatherUrl_dispatch (apiKey : String) (a : UrlArgs) :
    buildWeatherUrl apiKey a =
      if truthyNum a.lat && truthyNum a.lon then
        coordModeUrls apiKey (a.lat.getD 0) (a.lon.getD 0)
      else if a.type == some "zip" then zipModeUrls apiKey (strField a.location)
      else textModeUrls apiKey (strField a.location) := by
  rcases a with ⟨loc, lat, lon, ty⟩
  by_cases h : (truthyNum lat && truthyNum lon) = true
  · have hlat : ∃ la : Int, lat = some la := by
      cases lat with
      | none => simp [truthyNum] at h
      | some la => exact ⟨la, rfl⟩
    have hlon : ∃ lo : Int, lon = some lo := by
      cases lon with
      | none => simp [truthyNum] at h
      | some lo => exact ⟨lo, rfl⟩
    obtain ⟨la, rfl⟩ := hlat
    obtain ⟨lo, rfl⟩ := hlon
    simp [buildWeatherUrl, coordModeUrls, h, numField]
  · by_cases h2 : (ty == some "zip") = true
    · simp [buildWeatherUrl, zipModeUrls, h, h2]
    · simp [buildWeatherUrl, textModeUrls, h, h2]

/-- C9: a body with numeric zero coordinates and no location passes the
presence check (which tests the coordinates for `undefined` only), yet
enrichment is skipped and the weather URLs are built in free-text mode
with the literal text "undefined" as the query term, and the
`searchedLocation` of the successful response is "0,0". -/
theorem c9_zero_coords_truthiness (apiKey : String) (parse : String → Option Int)
    (now : Int) (w : World) (cur : CurrentPayload) (fc : ForecastPayload)
    (hc : w.current = .ok cur) (hf : w.forecast = .ok fc) :
    presenceRejected c9Body = false ∧
    enrichmentCall c9Body = none ∧
    buildWeatherUrl apiKey
        { location := c9Body.location, lat := c9Body.lat, lon := c9Body.lon,
          type := c9Body.type } =
      { current := "https://api.openweathermap.org/data/2.5/weather?q=undefined&appid="
          ++ apiKey ++ "&units=metric",
        forecast := "https://api.openweathermap.org/data/2.5/forecast?q=undefined&appid="
          ++ apiKey ++ "&units=metric" } ∧
    (postWeather apiKey parse now c9Body w).okData.map (fun wd => wd.searchedLocation) =
      some "0,0" := by
  refine ⟨by decide, by decide, rfl, ?_⟩
  rcases w with ⟨g, c, f⟩
  cases hc
  cases hf
  rfl

/-- C9 witness: the conclusion evaluated at a fully concrete world. -/
theorem c9_zero_coords_truthiness_witness :
    (postWeather "K" (fun _ => none) 0 c9Body okWorld).okData.map
      (fun wd => wd.searchedLocation) = some "0,0" :=
  (c9_zero_coords_truthiness "K" (fun _ => none) 0 okWorld basePayload
    { payload := "forecast" } rfl rfl).2.2.2

/-- C10: every CSV data line is the raw column values joined by commas,
with no quoting or escaping, so a row whose location — or whose
extracted weather field — contains a comma yields a line with more
comma-separated fields than the 7-column header. -/
theorem c10_csv_no_escaping (row : Row)
    (h : (',' : Char) ∈ row.location.data ∨
      (',' : Char) ∈ ((row.weather_data.current.base.weather.headD { main := "" }).main).data) :
    (∀ r : Row, (csvLine r).data =
      (toString r.id).data ++ [','] ++ r.location.data ++ [',']
        ++ (jsOrEmpty r.date_from).data ++ [','] ++ (jsOrEmpty r.date_to).data ++ [',']
        ++ (toString r.weather_data.current.base.main.temp).data ++ "°C,".data
        ++ ((r.weather_data.current.base.weather.headD { main := "" }).main).data ++ [',']
        ++ r.created_at.data) ∧
    csvFieldCount csvHeader = 7 ∧
    7 < csvFieldCount (csvLine row) := by
  have hline : ∀ r : Row, (csvLine r).data =
      (toString r.id).data ++ [','] ++ r.location.data ++ [',']
        ++ (jsOrEmpty r.date_from).data ++ [','] ++ (jsOrEmpty r.date_to).data ++ [',']
        ++ (toString r.weather_data.current.base.main.temp).data ++ "°C,".data
        ++ ((r.weather_data.current.base.weather.headD { main := "" }).main).data ++ [',']
        ++ r.created_at.data := by
    intro r
    simp [csvLine, String.data_append]
  refine ⟨hline, by decide, ?_⟩
  have hcnt : 0 < row.location.data.count ',' ∨
      0 < ((row.weather_data.current.base.weather.headD { main := "" }).main).data.count ',' := by
    rcases h with h | h
    · exact Or.inl (List.count_pos_iff.mpr h)
    · exact Or.inr (List.count_pos_iff.mpr h)
  unfold csvFieldCount
  rw [hline row]
  simp only [List.count_append]
  have hsep : ([','] : List Char).count ',' = 1 := by decide
  have hdeg : (['°', 'C', ','] : List Char).count ',' = 1 := by decide
  rcases hcnt with hcnt | hcnt <;> omega

/-- An augmented current payload whose extracted weather field contains
a comma. -/
def commaWeatherAug : AugmentedCurrent :=
  { plainAug with base := { basePayload with weather := [{ main := "Rain, thunder" }] } }

/-- A stored row whose only comma sits in the extracted weather
field. -/
def commaWeatherRow : Row :=
  { sampleRow with weather_data := { sampleStored with current := commaWeatherAug } }

/-- C10 witness: a concrete row whose extracted weather field contains a
comma misaligns the columns. -/
theorem c10_csv_no_escaping_witness :
    7 < csvFieldCount (csvLine commaWeatherRow) :=
  (c10_csv_no_escaping commaWeatherRow (by decide)).2.2

/-- C8: a `PUT /api/queries/:id` whose id matches no stored row, with a
truthy location, a passing date step and both upstream calls
succeeding, responds 404 and leaves the table exactly as it was. -/
theorem c8_update_unknown_id (apiKey : String) (parse : String → Option Int)
    (now : Int) (store : List Row) (idParam : Int) (b : PutBody) (w : World)
    (cur : CurrentPayload) (fc : ForecastPayload)
    (hid : ∀ r ∈ store, r.id ≠ idParam)
    (hloc : truthyStr b.location = true)
    (hd : dateRejection parse now b.dateFrom b.dateTo = none)
    (hc : w.current = .ok cur) (hf : w.forecast = .ok fc) :
    putQuery apiKey parse now store idParam b w =
      (.err 404 (some "Query not found"), store) := by
  rcases w with ⟨g, c, f⟩
  cases hc
  cases hf
  have hcount : store.countP (fun r => r.id == idParam) = 0 := by
    rw [List.countP_eq_zero]
    intro r hr
    simpa using hid r hr
  simp only [putQuery, hloc, Bool.not_true, Bool.false_eq_true, if_false, hd, hcount]
  simp only [beq_self_eq_true, if_true, Prod.mk.injEq, true_and]
  apply map_eq_self_of_fixes
  intro r hr
  have hne : (r.id == idParam) = false := by simpa using hid r hr
  simp [hne]

/-- C8 witness: a one-row table and an id that matches nothing. -/
theorem c8_update_unknown_id_witness :
    putQuery "K" (fun _ => none) 0 [sampleRow] 2
      { location := some "London", dateFrom := none, dateTo := none } okWorld =
      (.err 404 (some "Query not found"), [sampleRow]) :=
  c8_update_unknown_id "K" (fun _ => none) 0 [sampleRow] 2
    { location := some "London", dateFrom := none, dateTo := none } okWorld basePayload
    { payload := "forecast" } (by decide) (by decide) (by decide) rfl rfl

/-- A world whose upstream weather errors, if any, do not happen to
carry exactly the presence-check 400 payload; every real provider
failure satisfies this, and it rules out an upstream response spoofing
the handler's own validation message in the iff of claim C3. -/
def noSpoof (w : World) : Prop :=
  (∀ e, w.current = .error e →
    weatherCatch e ≠ .err 400 (some "Location or coordinates required.")) ∧
  (∀ e, w.forecast = .error e →
    weatherCatch e ≠ .err 400 (some "Location or coordinates required."))

/-- A request body that supplies nothing at all. -/
def emptyBody : ReqBody :=
  { location := none, lat := none, lon := none, type := none,
    dateFrom := none, dateTo := none }

/-- The request body of the C1 counterexample: a truthy `dateFrom` with
no `dateTo`. -/
def c1Body : ReqBody :=
  { location := some "Paris", lat := none, lon := none, type := none,
    dateFrom := some "2020-01-01", dateTo := none }

/-- The request body of the C1 witness: a range whose start parses after
its end. -/
def c1xBody : ReqBody :=
  { location := some "Paris", lat := none, lon := none, type := none,
    dateFrom := some "B", dateTo := some "A" }

/-- A date parser for the C1 fixtures: "B" parses to 5, "A" to 3,
everything else is an invalid date. -/
def c1xParse : String → Option Int :=
  fun s => if s == "B" then some 5 else if s == "A" then some 3 else none

/-- C1 counterexample: the claim says a request supplying one date of
the range without the other fails with a 400 `ValidationError` ("Both
dates are required"), but the handler guards the call to
`validateDateRange` with `if (dateFrom && dateTo)` (line 197), so a body
with a truthy `dateFrom` and no `dateTo` skips date validation entirely
and the request succeeds. -/
theorem c1_counterexample_partial_range :
    truthyStr c1Body.dateFrom = true ∧ c1Body.dateTo = none ∧
    (postWeather "K" (fun s => if s == "2020-01-01" then some 100 else none) 200
      c1Body okWorld).okData.isSome = true := by
  exact ⟨by decide, by decide, by decide⟩

/-- C1 (amended): date validation runs only when both `dateFrom` and
`dateTo` are truthy; in that case an unparseable date yields 400
"Invalid date format", a start after the end yields 400 "Start date must
be before end date", an end after the call time yields 400 "End date
cannot be in the future", and a range with parsed
`dateFrom ≤ dateTo ≤ now` passes; when either date field is absent or
falsy the date step is skipped and the request proceeds unvalidated. -/
theorem c1_amended_date_validation (apiKey : String) (parse : String → Option Int)
    (now : Int) (b : ReqBody) (w : World)
    (hp : presenceRejected b = false) :
    ((truthyStr b.dateFrom = false ∨ truthyStr b.dateTo = false) →
      postWeather apiKey parse now b w = postWeatherFetch apiKey b w) ∧
    (truthyStr b.dateFrom = true → truthyStr b.dateTo = true →
      (((b.dateFrom.bind parse = none ∨ b.dateTo.bind parse = none) →
        postWeather apiKey parse now b w = .err 400 (some "Invalid date format")) ∧
      (∀ f t, b.dateFrom.bind parse = some f → b.dateTo.bind parse = some t →
        ((f > t → postWeather apiKey parse now b w =
            .err 400 (some "Start date must be before end date")) ∧
         (f ≤ t → t > now → postWeather apiKey parse now b w =
            .err 400 (some "End date cannot be in the future")) ∧
         (f ≤ t → t ≤ now →
            postWeather apiKey parse now b w = postWeatherFetch apiKey b w))))) := by
  have hpw : postWeather apiKey parse now b w =
      match dateRejection parse now b.dateFrom b.dateTo with
      | some e => .err 400 e
      | none => postWeatherFetch apiKey b w := by
    simp [postWeather, hp]
  constructor
  · intro hft
    have hdr : dateRejection parse now b.dateFrom b.dateTo = none := by
      rcases hft with hft | hft <;> simp [dateRejection, hft]
    rw [hpw, hdr]
  · intro h1 h2
    have hcond : (!truthyStr b.dateFrom || !truthyStr b.dateTo) = false := by
      rw [h1, h2]; rfl
    constructor
    · intro h3
      have hval : validateDateRange parse now b.dateFrom b.dateTo =
          { valid := false, error := some "Invalid date format" } := by
        unfold validateDateRange
        rw [if_neg (by simp [hcond])]
        rcases h3 with h3 | h3
        · rw [h3]
        · cases hbf : b.dateFrom.bind parse <;> rw [h3]
      rw [hpw]
      simp [dateRejection, h1, h2, hval]
    · intro f t hf ht
      refine ⟨?_, ?_, ?_⟩
      · intro hgt
        have hval : validateDateRange parse now b.dateFrom b.dateTo =
            { valid := false, error := some "Start date must be before end date" } := by
          unfold validateDateRange
          rw [if_neg (by simp [hcond]), hf, ht]
          dsimp only
          rw [if_pos hgt]
        rw [hpw]
        simp [dateRejection, h1, h2, hval]
      · intro hle hfut
        have hval : validateDateRange parse now b.dateFrom b.dateTo =
            { valid := false, error := some "End date cannot be in the future" } := by
          unfold validateDateRange
          rw [if_neg (by simp [hcond]), hf, ht]
          dsimp only
          rw [if_neg (by omega), if_pos hfut]
        rw [hpw]
        simp [dateRejection, h1, h2, hval]
      · intro hle hnow
        have hval : validateDateRange parse now b.dateFrom b.dateTo =
            { valid := true, error := none } := by
          unfold validateDateRange
          rw [if_neg (by simp [hcond]), hf, ht]
          dsimp only
          rw [if_neg (by omega), if_neg (by omega)]
        rw [hpw]
        simp [dateRejection, h1, h2, hval]

/-- C1 witness: a range whose start parses after its end is rejected
with the specific message. -/
theorem c1_amended_date_validation_witness :
    postWeather "K" c1xParse 10 c1xBody okWorld =
      .err 400 (some "Start date must be before end date") :=
  (((c1_amended_date_validation "K" c1xParse 10 c1xBody okWorld (by decide)).2
    (by decide) (by decide)).2 5 3 (by decide) (by decide)).1 (by decide)

/-- C3: the handler answers 400 "Location or coordinates required." if
and only if the body supplies neither a location nor both coordinate
fields.  Supplying a location is formalised as the field being truthy
(the empty string does not count as a location, matching `!location` at
line 196); supplying the coordinates is field presence (`=== undefined`
at line 196).  The `noSpoof` hypothesis only excludes an upstream error
response that carries this exact 400 payload itself. -/
theorem c3_presence_check_iff (apiKey : String) (parse : String → Option Int)
    (now : Int) (b : ReqBody) (w : World) (hw : noSpoof w) :
    postWeather apiKey parse now b w = .err 400 (some "Location or coordinates required.") ↔
      ¬(truthyStr b.location = true ∨ (b.lat ≠ none ∧ b.lon ≠ none)) := by
  rw [← presenceRejected_iff]
  constructor
  · intro h
    by_contra hb
    have hp : presenceRejected b = false := by
      cases hpb : presenceRejected b
      · rfl
      · exact absurd hpb hb
    simp only [postWeather, hp, Bool.false_eq_true, if_false] at h
    rcases hdr : dateRejection parse now b.dateFrom b.dateTo with _ | e
    · rw [hdr] at h
      rcases hcw : w.current with e | cur
      · simp only [postWeatherFetch, hcw] at h
        exact hw.1 e hcw h
      · rcases hfw : w.forecast with e2 | fc
        · simp only [postWeatherFetch, hcw, hfw] at h
          exact hw.2 e2 hfw h
        · simp [postWeatherFetch, hcw, hfw] at h
    · rw [hdr] at h
      have hmsg := dateRejection_cases parse now b.dateFrom b.dateTo e hdr
      injection h with hstat he
      rcases hmsg with hm | hm | hm | hm <;> rw [hm] at he <;> simp at he
  · intro h
    simp [postWeather, h]

/-- C3 witness: the empty body is rejected by the presence check. -/
theorem c3_presence_check_iff_witness :
    (postWeather "K" (fun _ => none) 0 emptyBody okWorld =
      .err 400 (some "Location or coordinates required.")) ↔
    ¬(truthyStr emptyBody.location = true ∨
      (emptyBody.lat ≠ none ∧ emptyBody.lon ≠ none)) :=
  c3_presence_check_iff "K" (fun _ => none) 0 emptyBody okWorld
    ⟨fun e h => by simp [okWorld] at h, fun e h => by simp [okWorld] at h⟩

/-- The body of a 401 upstream error response. -/
def failData : AxiosData := { message := some "Invalid API key" }

/-- A 401 upstream error response. -/
def failResp : AxiosResp := { status := 401, data := some failData }

/-- A rejection carrying the 401 response. -/
def failErr : AxiosErr := { response := some failResp }

/-- A world whose current-conditions call rejects with a 401 response
carrying a message. -/
def failWorld : World :=
  { geo := .ok none, current := .error failErr,
    forecast := .ok { payload := "forecast" } }

/-- `basePayload` with a timezone of numeric zero (UTC). -/
def tzPayload : CurrentPayload := { basePayload with timezone := some 0 }

/-- `okWorld` whose current-conditions payload reports timezone 0. -/
def tzWorld : World := { okWorld with current := .ok tzPayload }

/-- The response record of the C5 witness. -/
def c5wd : WeatherData :=
  { current := augmentCurrent basePayload none,
    forecast := { payload := "forecast" }, searchedLocation := "Paris" }

/-- The insert of the C5 witness. -/
def c5ins : InsertArgs :=
  { location := "Paris", date_from := none, date_to := none, data := c5wd }

/-- The request body of the C6 counterexample: a location together with
exactly one truthy coordinate. -/
def c6Body : ReqBody :=
  { location := some "Paris", lat := some 48, lon := none, type := none,
    dateFrom := none, dateTo := none }

/-- C4: once validation has passed, a failing current-conditions or
forecast call fails the whole request: when the rejection carries an
upstream response with a body, the handler mirrors the upstream status
and message; otherwise it answers 500 "Failed to fetch weather data.";
and the request succeeds when both calls succeed.  The claim's "carries
an upstream response" is formalised as `err.response && err.response.data`
being truthy, the condition at line 210 (an upstream message can only
exist inside a response body). -/
theorem c4_upstream_failure_propagation (apiKey : String) (parse : String → Option Int)
    (now : Int) (b : ReqBody) (w : World)
    (hp : presenceRejected b = false)
    (hd : dateRejection parse now b.dateFrom b.dateTo = none) :
    (∀ e r d, w.current = .error e → e.response = some r → r.data = some d →
      postWeather apiKey parse now b w = .err r.status d.message) ∧
    (∀ e, w.current = .error e →
      (e.response = none ∨ ∃ r, e.response = some r ∧ r.data = none) →
      postWeather apiKey parse now b w = .err 500 (some "Failed to fetch weather data.")) ∧
    (∀ cur e r d, w.current = .ok cur → w.forecast = .error e →
      e.response = some r → r.data = some d →
      postWeather apiKey parse now b w = .err r.status d.message) ∧
    (∀ cur e, w.current = .ok cur → w.forecast = .error e →
      (e.response = none ∨ ∃ r, e.response = some r ∧ r.data = none) →
      postWeather apiKey parse now b w = .err 500 (some "Failed to fetch weather data.")) ∧
    (∀ cur fc, w.current = .ok cur → w.forecast = .ok fc →
      (postWeather apiKey parse now b w).okData.isSome = true) := by
  have hpw : postWeather apiKey parse now b w = postWeatherFetch apiKey b w := by
    simp [postWeather, hp, hd]
  refine ⟨?_, ?_, ?_, ?_, ?_⟩
  · intro e r d hce hr hrd
    rw [hpw]
    simp [postWeatherFetch, hce, weatherCatch, hr, hrd]
  · intro e hce hcase
    rw [hpw]
    rcases hcase with hn | ⟨r, hr, hrd⟩
    · simp [postWeatherFetch, hce, weatherCatch, hn]
    · simp [postWeatherFetch, hce, weatherCatch, hr, hrd]
  · intro cur e r d hcc hfe hr hrd
    rw [hpw]
    simp [postWeatherFetch, hcc, hfe, weatherCatch, hr, hrd]
  · intro cur e hcc hfe hcase
    rw [hpw]
    rcases hcase with hn | ⟨r, hr, hrd⟩
    · simp [postWeatherFetch, hcc, hfe, weatherCatch, hn]
    · simp [postWeatherFetch, hcc, hfe, weatherCatch, hr, hrd]
  · intro cur fc hcc hff
    rw [hpw]
    simp [postWeatherFetch, hcc, hff, PostResult.okData]

/-- C4 witness: a current-conditions call rejected with an upstream 401
response is mirrored to the client. -/
theorem c4_upstream_failure_propagation_witness :
    postWeather "K" (fun _ => none) 0 parisBody failWorld =
      .err 401 (some "Invalid API key") :=
  (c4_upstream_failure_propagation "K" (fun _ => none) 0 parisBody failWorld
      (by decide) (by decide)).1 failErr failResp failData rfl rfl rfl

/-- C5 counterexample: the claim says `timezoneOffset` is copied from
`current.timezone` whenever that field is present, but line 206 tests
the number for truthiness, so an upstream timezone of 0 (UTC) is present
in the payload yet `timezoneOffset` stays absent in the successful
response. -/
theorem c5_counterexample_timezone_zero :
    (postWeather "K" (fun _ => none) 0 parisBody tzWorld).okData.map
      (fun wd => (wd.current.base.timezone, wd.current.timezoneOffset)) =
      some (some 0, none) := by decide

/-- C5 (amended): a successful request responds with the
current-conditions payload as `current`, the forecast payload as
`forecast`, `searchedLocation` equal to the truthy location text or else
the "lat,lon" string; `current` is augmented with `coordinates` copied
from `coord` when present, with `enhancedLocation` and
`displayName = fullName` exactly when enrichment succeeded, and with
`timezoneOffset` copied from `timezone` when that number is truthy
(present and non-zero). -/
theorem c5_amended_merge_augment (apiKey : String) (parse : String → Option Int)
    (now : Int) (b : ReqBody) (w : World) (cur : CurrentPayload) (fc : ForecastPayload)
    (wd : WeatherData) (ins : InsertArgs)
    (hc : w.current = .ok cur) (hf : w.forecast = .ok fc)
    (hr : postWeather apiKey parse now b w = .ok wd ins) :
    wd.current.base = cur ∧
    wd.forecast = fc ∧
    wd.searchedLocation = (if truthyStr b.location then b.location.getD ""
      else numField b.lat ++ "," ++ numField b.lon) ∧
    wd.current.coordinates = cur.coord.map (fun c => { lat := c.lat, lon := c.lon }) ∧
    wd.current.enhancedLocation = enrichResult b w ∧
    wd.current.displayName = (enrichResult b w).map (fun i => i.fullName) ∧
    wd.current.timezoneOffset = (if truthyNum cur.timezone then cur.timezone else none) := by
  unfold postWeather at hr
  by_cases hpb : presenceRejected b = true
  · rw [if_pos hpb] at hr
    exact absurd hr (by simp)
  · rw [if_neg hpb] at hr
    rcases hdr : dateRejection parse now b.dateFrom b.dateTo with _ | e
    · rw [hdr] at hr
      simp only [postWeatherFetch, hc, hf] at hr
      rw [PostResult.ok.injEq] at hr
      obtain ⟨hwd, hins⟩ := hr
      subst hwd
      exact ⟨rfl, rfl, rfl, rfl, rfl, rfl, rfl⟩
    · rw [hdr] at hr
      exact absurd hr (by simp)

/-- C5 witness: the amended theorem applied to a concrete successful
request. -/
theorem c5_amended_merge_augment_witness :
    c5wd.searchedLocation = (if truthyStr parisBody.location then parisBody.location.getD ""
      else numField parisBody.lat ++ "," ++ numField parisBody.lon) ∧
    c5wd.current.timezoneOffset =
      (if truthyNum basePayload.timezone then basePayload.timezone else none) := by
  have h := c5_amended_merge_augment "K" (fun _ => none) 0 parisBody okWorld basePayload
    { payload := "forecast" } c5wd c5ins rfl rfl (by decide)
  exact ⟨h.2.2.1, h.2.2.2.2.2.2⟩

/-- C6 counterexample: the claim says the resolver is invoked whenever
exactly one of the location text and the coordinate pair is supplied;
this body supplies a location (under both the presence and the
truthiness reading) and does not supply the coordinate pair (only `lat`,
under either reading), yet lines 199-200 invoke no resolver, because the
truthy `lat` falsifies both branch conditions. -/
theorem c6_counterexample_partial_coords :
    (c6Body.location ≠ none ∧ truthyStr c6Body.location = true) ∧
    ¬(c6Body.lat ≠ none ∧ c6Body.lon ≠ none) ∧
    ¬(truthyNum c6Body.lat = true ∧ truthyNum c6Body.lon = true) ∧
    enrichmentCall c6Body = none := by decide

/-- C6 (amended): forward geocoding is invoked exactly when the location
is truthy and both coordinates are falsy, reverse geocoding exactly when
both coordinates are truthy and the location is falsy — so any truthy
coordinate supplied alongside a location suppresses enrichment — and a
request whose enrichment is skipped still succeeds when validation
passes and both weather calls succeed. -/
theorem c6_amended_enrichment_dispatch (b : ReqBody) (apiKey : String)
    (parse : String → Option Int) (now : Int) (w : World) (cur : CurrentPayload)
    (fc : ForecastPayload)
    (hp : presenceRejected b = false)
    (hd : dateRejection parse now b.dateFrom b.dateTo = none)
    (hc : w.current = .ok cur) (hf : w.forecast = .ok fc) :
    (enrichmentCall b = some .forward ↔
      (truthyStr b.location = true ∧ truthyNum b.lat = false ∧ truthyNum b.lon = false)) ∧
    (enrichmentCall b = some .reverse ↔
      (truthyNum b.lat = true ∧ truthyNum b.lon = true ∧ truthyStr b.location = false)) ∧
    (enrichmentCall b = none → (postWeather apiKey parse now b w).okData.isSome = true) := by
  refine ⟨?_, ?_, ?_⟩
  · cases hl : truthyStr b.location <;> cases ha : truthyNum b.lat <;>
      cases hb : truthyNum b.lon <;> simp [enrichmentCall, hl, ha, hb]
  · cases hl : truthyStr b.location <;> cases ha : truthyNum b.lat <;>
      cases hb : truthyNum b.lon <;> simp [enrichmentCall, hl, ha, hb]
  · intro hn
    simp [postWeather, hp, hd, postWeatherFetch, hc, hf, PostResult.okData]

/-- C6 witness: the amended dispatch evaluated on the partial-coordinate
body. -/
theorem c6_amended_enrichment_dispatch_witness :
    ¬(truthyStr c6Body.location = true ∧ truthyNum c6Body.lat = false ∧
      truthyNum c6Body.lon = false) ∧
    (postWeather "K" (fun _ => none) 0 c6Body okWorld).okData.isSome = true := by
  have h := c6_amended_enrichment_dispatch c6Body "K" (fun _ => none) 0 okWorld
    basePayload { payload := "forecast" } (by decide) (by decide) rfl rfl
  exact ⟨by decide, h.2.2 (by decide)⟩

/-- C7: both resolvers answer `null` when the geocoding call fails, when
its `data` is missing, or when it returns zero results; and a request
whose enrichment came back empty still succeeds when validation passes
and both weather calls succeed, with `enhancedLocation` absent from the
response. -/
theorem c7_enrichment_best_effort (g : GeoOutcome) (latV lonV : Int)
    (apiKey : String) (parse : String → Option Int) (now : Int) (b : ReqBody)
    (w : World) (cur : CurrentPayload) (fc : ForecastPayload)
    (hg : g = .error () ∨ g = .ok none ∨ g = .ok (some []))
    (hp : presenceRejected b = false)
    (hd : dateRejection parse now b.dateFrom b.dateTo = none)
    (he : enrichResult b w = none)
    (hc : w.current = .ok cur) (hf : w.forecast = .ok fc) :
    getCoordinatesFromLocation g = none ∧
    getLocationFromCoordinates g latV lonV = none ∧
    (postWeather apiKey parse now b w).okData.map
      (fun wd => wd.current.enhancedLocation) = some none := by
  refine ⟨?_, ?_, ?_⟩
  · rcases hg with h | h | h <;> simp [getCoordinatesFromLocation, h]
  · rcases hg with h | h | h <;> simp [getLocationFromCoordinates, h]
  · simp [postWeather, hp, hd, postWeatherFetch, hc, hf, PostResult.okData,
      augmentCurrent, he]

/-- C7 witness: zero provider results leave the successful response
without `enhancedLocation`. -/
theorem c7_enrichment_best_effort_witness :
    getCoordinatesFromLocation (.ok (some [])) = none ∧
    getLocationFromCoordinates (.ok (some [])) 1 2 = none ∧
    (postWeather "K" (fun _ => none) 0 parisBody okWorld).okData.map
      (fun wd => wd.current.enhancedLocation) = some none :=
  c7_enrichment_best_effort (.ok (some [])) 1 2 "K" (fun _ => none) 0 parisBody
    okWorld basePayload { payload := "forecast" } (Or.inr (Or.inr rfl))
    (by decide) (by decide) (by decide) rfl rfl

end WeatherBackend
